import Mathlib

/-!
Shallow embedding of the schedule-import reconciliation engine of the
photonranch-calendar service (source: `import_schedules.py`, with the store
helpers from `utils.py`).  Python dictionaries coming from the upstream JSON
API are modelled by the inductive type `Val`; fallible Python code (KeyError,
IndexError, TypeError, ...) is modelled with `Except String`.  DynamoDB is
modelled as an explicit in-memory store (`StoreState`) together with a log of
write operations (`StoreOp`), so that "number of store writes" is a provable
quantity.
-/

/-- A Python/JSON value as delivered by the upstream scheduling API.
Floats are modelled as rationals (the arithmetic performed by the code —
division by 15, multiplication by 100 — is exact on the values involved).
Python `bool` is a subtype of `int`, which matters for `isinstance` checks,
so it is kept as a separate constructor and treated as numeric. -/
inductive Val where
  | vInt : Int → Val
  | vNum : ℚ → Val
  | vStr : String → Val
  | vBool : Bool → Val
  | vDict : List (String × Val) → Val
  | vList : List Val → Val
  | vNone : Val
deriving Repr

namespace Val

/-- `d[k]` on a Python dict: KeyError when absent, TypeError when not a dict. -/
def getKey : Val → String → Except String Val
  | vDict l, k => match l.find? (fun p => p.1 == k) with
    | some p => .ok p.2
    | none => .error ("KeyError: " ++ k)
  | _, k => .error ("TypeError: subscript " ++ k)

/-- `d.get(k)` on a Python dict: `none` when absent, error when not a dict. -/
def getOpt : Val → String → Except String (Option Val)
  | vDict l, k => .ok ((l.find? (fun p => p.1 == k)).map (·.2))
  | _, _ => .error "AttributeError: get"

/-- `k in d` membership test (dict only; other receivers are not exercised). -/
def hasKey : Val → String → Bool
  | vDict l, k => l.any (fun p => p.1 == k)
  | _, _ => false

/-- Replace the binding of `k` (first occurrence, preserving position, as a
Python dict update does) or append it; identity on non-dicts (unreachable in
the modelled flows, which always check the dict first). -/
def setKey : Val → String → Val → Val
  | vDict l, k, v =>
      if l.any (fun p => p.1 == k) then
        vDict (l.map (fun p => if p.1 == k then (p.1, v) else p))
      else
        vDict (l ++ [(k, v)])
  | other, _, _ => other

def isDict : Val → Bool
  | vDict _ => true
  | _ => false

def isStr : Val → Bool
  | vStr _ => true
  | _ => false

def isList : Val → Bool
  | vList _ => true
  | _ => false

/-- `isinstance(x, int)` — Python bools are ints. -/
def isInstInt : Val → Bool
  | vInt _ => true
  | vBool _ => true
  | _ => false

/-- `isinstance(x, (int, float))`. -/
def isInstNum : Val → Bool
  | vInt _ => true
  | vNum _ => true
  | vBool _ => true
  | _ => false

/-- Expect a string value (contexts where Python would raise on non-strings:
string concatenation, `.split`, and the store's string-typed attributes). -/
def expectStr : Val → Except String String
  | vStr s => .ok s
  | _ => .error "TypeError: expected str"

/-- Expect a dict value. -/
def expectDict : Val → Except String (List (String × Val))
  | vDict l => .ok l
  | _ => .error "TypeError: expected dict"

/-- Expect a list value (iteration / indexing context). -/
def expectList : Val → Except String (List Val)
  | vList l => .ok l
  | _ => .error "TypeError: expected list"

end Val

open Val

/-- Minimal model of Python `float(x)` on the value shapes that occur:
numbers pass through, bools map to 0/1, strings are parsed as plain decimal
literals (sign, integer part, optional fractional part — the only string
shapes the upstream data can carry); anything else raises. -/
def parseRat (s : String) : Option ℚ :=
  let t := s.trim
  let (sign, u) : ℚ × String :=
    if t.startsWith "-" then (-1, t.drop 1)
    else if t.startsWith "+" then (1, t.drop 1) else (1, t)
  match u.splitOn "." with
  | [a] => (a.toNat?).map (fun n => sign * (n : ℚ))
  | [a, b] =>
      if a.isEmpty && b.isEmpty then none
      else match a.toNat?, b.toNat? with
        | some n, some m =>
            some (sign * ((n : ℚ) + (m : ℚ) / ((10 : ℚ) ^ b.length)))
        | some n, none => if b.isEmpty then some (sign * (n : ℚ)) else none
        | none, some m =>
            if a.isEmpty then some (sign * ((m : ℚ) / ((10 : ℚ) ^ b.length)))
            else none
        | none, none => none
  | _ => none

def pyFloat : Val → Except String ℚ
  | .vInt n => .ok (n : ℚ)
  | .vNum q => .ok q
  | .vBool b => .ok (if b then 1 else 0)
  | .vStr s => match parseRat s with
    | some q => .ok q
    | none => .error "ValueError: float"
  | _ => .error "TypeError: float"

/-- Model of Python `int(x)`: ints pass through, bools map to 0/1, floats
truncate toward zero, strings parse as integer literals. -/
def pyInt : Val → Except String Int
  | .vInt n => .ok n
  | .vBool b => .ok (if b then 1 else 0)
  | .vNum q => .ok (Int.tdiv q.num (q.den : Int))
  | .vStr s => match s.trim.toInt? with
    | some n => .ok n
    | none => .error "ValueError: int"
  | _ => .error "TypeError: int"

/-- Python `x / 15` (true division, always produces a float): TypeError on
non-numeric operands. -/
def pyDiv15 : Val → Except String Val
  | .vInt n => .ok (.vNum ((n : ℚ) / 15))
  | .vNum q => .ok (.vNum (q / 15))
  | .vBool b => .ok (.vNum ((if b then (1 : ℚ) else 0) / 15))
  | _ => .error "TypeError: unsupported operand for /"

/-- Python `str(x)` as used in f-strings.  Upstream fields formatted this way
are strings in practice; representations of non-string scalars are
approximate but never exercised by the theorems below. -/
def pyStr : Val → String
  | .vStr s => s
  | .vInt n => toString n
  | .vBool b => if b then "True" else "False"
  | .vNum q => toString q.num ++ "/" ++ toString q.den
  | .vNone => "None"
  | .vDict _ => "<dict>"
  | .vList _ => "<list>"

/-- Association-list lookup (models Python dict lookup on the static
configuration tables). -/
def alookup {α : Type} (l : List (String × α)) (k : String) : Option α :=
  (l.find? (fun p => p.1 == k)).map (·.2)

-- ---------------------------------------------------------------------------
-- Site topology registry (module-level constants of import_schedules.py)
-- ---------------------------------------------------------------------------

def SITES_TO_USE_WITH_SCHEDULER : List String := ["mrc", "aro", "eco"]

/-- WEMA → telescope ID → PTR site. -/
def SITE_FROM_WEMA_AND_TELESCOPE_ID : List (String × List (String × String)) :=
  [ ("mrc", [("0m31", "mrc1"), ("0m61", "mrc2")]),
    ("aro", [("0m3", "aro1")]),
    ("eco", [("0m43", "eco1"), ("0m28", "eco2")]) ]

/-- PTR site → (WEMA, telescope ID): built by inverting the nested map, as the
module does at import time. -/
def PTR_SITE_TO_WEMA_TELESCOPE : List (String × (String × String)) :=
  SITE_FROM_WEMA_AND_TELESCOPE_ID.flatMap
    (fun p => p.2.map (fun q => (q.2, (p.1, q.1))))

def PTR_SITES_PER_WEMA : List (String × List String) :=
  [ ("mrc", ["mrc1", "mrc2"]),
    ("aro", ["aro1"]),
    ("eco", ["eco1", "eco2"]) ]

-- ---------------------------------------------------------------------------
-- Observation.validate_observation_format
-- ---------------------------------------------------------------------------

/-- `k in d and isinstance(d[k], ty)` — membership tests are modelled for dict
receivers only (the code only reaches them with dicts; a non-dict raises). -/
def keyHasType (d : Val) (k : String) (ty : Val → Bool) : Except String Bool := do
  let dd ← d.expectDict
  match alookup dd k with
  | some v => .ok (ty v)
  | none => .ok false

/-- `k in d` (presence only). -/
def keyPresent (d : Val) (k : String) : Except String Bool := do
  let dd ← d.expectDict
  .ok (dd.any (fun p => p.1 == k))

/-- Short-circuiting `all(f(x) for x in l)` where `f` may raise. -/
def allExcept {α : Type} (f : α → Except String Bool) : List α → Except String Bool
  | [] => .ok true
  | a :: as => do
    let b ← f a
    if b then allExcept f as else .ok false

/-- Inner helper `validate_target` of `validate_observation_format`. -/
def validate_target (target : Val) : Except String Bool := do
  let ra ← keyHasType target "ra" Val.isInstNum
  let dec ← keyHasType target "dec" Val.isInstNum
  .ok (ra && dec)

/-- Inner helper `validate_inst_config`.  Note, as in the source: the
`keys_are_present` flags are computed first, but the filter and offset checks
subscript `optical_elements` / `extra_params` unconditionally, so a config
missing those keys raises rather than returning `false`. -/
def validate_inst_config (instrument_config : Val) : Except String Bool := do
  let k1 ← keyHasType instrument_config "exposure_count" Val.isInstInt
  let k2 ← keyHasType instrument_config "exposure_time" Val.isInstNum
  let k3 ← keyHasType instrument_config "mode" Val.isStr
  let k4 ← keyHasType instrument_config "extra_params" Val.isDict
  let k5 ← keyHasType instrument_config "optical_elements" Val.isDict
  let keys_are_present := k1 && k2 && k3 && k4 && k5
  let oe ← instrument_config.getKey "optical_elements"
  let filter_present ← keyHasType oe "filter" Val.isStr
  let ep ← instrument_config.getKey "extra_params"
  let o1 ← keyPresent ep "offset_dec"
  let o2 ← keyPresent ep "offset_ra"
  let o3 ← keyPresent ep "rotator_angle"
  .ok (keys_are_present && filter_present && (o1 && o2 && o3))

/-- Inner helper `validate_configuration`. -/
def validate_configuration (config : Val) : Except String (Bool × String) := do
  let c1 ← keyHasType config "constraints" Val.isDict
  let c2 ← keyHasType config "instrument_configs" Val.isList
  let c3 ← keyHasType config "target" Val.isDict
  let c4 ← keyHasType config "type" Val.isStr
  let config_keys_present := c1 && c2 && c3 && c4
  let targetOpt ← config.getOpt "target"
  let targets_ok ← validate_target (targetOpt.getD (.vDict []))
  let consOpt ← config.getOpt "constraints"
  let cons := consOpt.getD (.vDict [])
  let a1 ← keyPresent cons "max_airmass"
  let a2 ← keyPresent cons "max_lunar_phase"
  let a3 ← keyPresent cons "min_lunar_distance"
  let constraints_ok := a1 && a2 && a3
  let icsOpt ← config.getOpt "instrument_configs"
  let ics ← (icsOpt.getD (.vList [.vDict []])).expectList
  let instrument_configs_ok ← allExcept validate_inst_config ics
  if !config_keys_present then .ok (false, "Missing required keys in configuration")
  else if !targets_ok then .ok (false, "Targets failed validation")
  else if !constraints_ok then .ok (false, "Constraints failed validation")
  else if !instrument_configs_ok then .ok (false, "Instrument configs failed validation")
  else .ok (true, "Validation successful")

/-- The ten required top-level keys.  As in the source, only *presence* is
checked at the top level (the declared types in `required_keys` are unused
there). -/
def required_top_keys : List String :=
  ["site", "start", "end", "submitter", "modified", "created", "name",
   "telescope", "observation_type", "request"]

/-- Validation of the per-configuration list, with the running index used in
failure messages (`for index, conf in enumerate(configurations)`). -/
def validateConfigs (i : Nat) : List Val → Except String (Bool × String)
  | [] => .ok (true, "Validation successful")
  | conf :: rest => do
    let pm ← validate_configuration conf
    if !conf.isDict || !pm.1 then
      .ok (false, "Configuration number " ++ toString i ++
                  " failed validation: " ++ pm.2)
    else validateConfigs (i + 1) rest

/-- `Observation.validate_observation_format`.  The list representation inside
the missing-keys message is simplified (no quoting). -/
def validate_observation_format (observation : Val) : Except String (Bool × String) := do
  let obsD ← observation.expectDict
  let missing_keys := required_top_keys.filter (fun k => !obsD.any (fun p => p.1 == k))
  if !missing_keys.isEmpty then
    .ok (false, "Missing keys: [" ++ String.intercalate ", " missing_keys ++ "]")
  else do
    let request ← observation.getKey "request"
    let cfgsOpt ← request.getOpt "configurations"
    let configurations ← (cfgsOpt.getD (.vList [])).expectList
    validateConfigs 0 configurations

-- ---------------------------------------------------------------------------
-- Observation._translate_to_project / _translate_to_calendar
-- ---------------------------------------------------------------------------

/-- Inner helper `truncate_microseconds`. -/
def truncate_microseconds (date_str : String) : String :=
  match date_str.splitOn "." with
  | [] => date_str
  | [_] => date_str
  | p :: _ => p ++ "Z"

/-- One entry of `project["exposures"]` (the exposure-set dict built per
instrument config). -/
structure ExposureSet where
  exposure : ℚ
  count : Int
  filter : Val
  imtype : Val
  zoom : Val
  angle : Val
  width : String
  height : String
  offset_ra : Val
  offset_dec : Val
  defocus : Val
deriving Repr

/-- The `project_constraints` sub-dict. -/
structure ProjectConstraints where
  ra_offset : Val
  ra_offset_units : String
  dec_offset : Val
  dec_offset_units : String
  defocus : Val
  lunar_phase_max : ℚ
  lunar_dist_min : ℚ
  max_airmass : ℚ
  project_is_active : Bool
  start_date : String
  expiry_date : String
deriving Repr

/-- The project record built by `_translate_to_project`. -/
structure Project where
  user_id : String
  project_name : String
  created_at : String
  origin : String
  full_lco_observation : Val
  project_id : String
  start_date : String
  expiry_date : String
  project_constraints : ProjectConstraints
  project_creator_username : String
  project_creator_user_id : String
  project_priority : String
  project_sites : List String
  project_note : String
  scheduled_with_events : List String
  project_targets : List Val
  exposures : List ExposureSet
  remaining : List Int
  project_data : List (List Val)
deriving Repr

/-- `mapM` over `Except` written out, so its inversion lemmas are elementary. -/
def mapExcept {α β : Type} (f : α → Except String β) : List α → Except String (List β)
  | [] => .ok []
  | a :: as => do
    let b ← f a
    let bs ← mapExcept f as
    .ok (b :: bs)

/-- Body of the `for inst_config in configuration["instrument_configs"]` loop:
builds one exposure set. -/
def mk_exposure_set (configuration : Val) (inst_config : Val) : Except String ExposureSet := do
  let exposure ← pyFloat (← inst_config.getKey "exposure_time")
  let count ← pyInt (← inst_config.getKey "exposure_count")
  let oe ← inst_config.getKey "optical_elements"
  let filterV ← oe.getKey "filter"
  let imtype ← configuration.getKey "type"
  let zoom ← inst_config.getKey "mode"
  let ep ← inst_config.getKey "extra_params"
  let angleOpt ← ep.getOpt "rotator_angle"
  let offset_ra ← ep.getKey "offset_ra"
  let offset_dec ← ep.getKey "offset_dec"
  let defocusOpt ← ep.getOpt "defocus"
  .ok { exposure := exposure, count := count, filter := filterV,
        imtype := imtype, zoom := zoom,
        angle := angleOpt.getD (.vInt 0),
        width := "0.0", height := "0.0",
        offset_ra := offset_ra, offset_dec := offset_dec,
        defocus := defocusOpt.getD (.vInt 0) }

/-- All fallible reads performed by `_translate_to_project`, in source order,
collected before the record is assembled. -/
structure TranslationParts where
  request : Val
  configurations : List Val
  configuration : Val
  project_name : Val
  created_at : String
  start_date : String
  expiry_date : String
  submitter : String
  ra_offset : Val
  dec_offset : Val
  defocus0 : Val
  lunar_phase_max : ℚ
  lunar_dist_min : ℚ
  max_airmass : ℚ
  target : Val
  ra_divided : Val
  inst_configs : List Val
  exposure_sets : List ExposureSet
deriving Repr

/-- Unwrap an optional value or raise (Python KeyError/IndexError contexts on
the static tables and list indexing). -/
def opt_get_exc {α : Type} (o : Option α) (msg : String) : Except String α :=
  match o with
  | some a => .ok a
  | none => .error msg

def project_parts (observation : Val) : Except String TranslationParts := do
  let request ← observation.getKey "request"
  let configurations ← (← request.getKey "configurations").expectList
  -- config_idx = 0: only the first configuration is used
  let configuration ← opt_get_exc (configurations[0]?) "IndexError: configurations"
  let project_name ← observation.getKey "name"
  let created_at := truncate_microseconds (← (← observation.getKey "created").expectStr)
  let start_date := truncate_microseconds (← (← observation.getKey "start").expectStr)
  let expiry_date := truncate_microseconds (← (← observation.getKey "end").expectStr)
  let submitter ← (← observation.getKey "submitter").expectStr
  let inst_configs ← (← configuration.getKey "instrument_configs").expectList
  let ic0 ← opt_get_exc (inst_configs[0]?) "IndexError: instrument_configs"
  let ep0 ← ic0.getKey "extra_params"
  let ra_offset ← ep0.getKey "offset_ra"
  let dec_offset ← ep0.getKey "offset_dec"
  let defocusOpt ← ep0.getOpt "defocus"
  let constraints ← configuration.getKey "constraints"
  let lunar_phase_max ← pyFloat (← constraints.getKey "max_lunar_phase")
  let lunar_dist_min ← pyFloat (← constraints.getKey "min_lunar_distance")
  let max_airmass ← pyFloat (← constraints.getKey "max_airmass")
  let target ← configuration.getKey "target"
  let ra_original ← target.getKey "ra"
  let ra_divided ← pyDiv15 ra_original
  let exposure_sets ← mapExcept (mk_exposure_set configuration) inst_configs
  .ok { request := request, configurations := configurations,
        configuration := configuration, project_name := project_name,
        created_at := created_at, start_date := start_date,
        expiry_date := expiry_date, submitter := submitter,
        ra_offset := ra_offset, dec_offset := dec_offset,
        defocus0 := defocusOpt.getD (.vInt 0),
        lunar_phase_max := lunar_phase_max, lunar_dist_min := lunar_dist_min,
        max_airmass := max_airmass, target := target,
        ra_divided := ra_divided, inst_configs := inst_configs,
        exposure_sets := exposure_sets }

/-- `project["project_targets"][0]["ra"] /= 15` mutates the *shared* target
dict in place; the observation seen afterwards reflects it.  Returns the
mutated observation together with the mutated target. -/
def mutate_ra (observation : Val) (c : TranslationParts) : Val × Val :=
  let target2 := c.target.setKey "ra" c.ra_divided
  let configuration2 := c.configuration.setKey "target" target2
  let configurations2 := c.configurations.set 0 configuration2
  let request2 := c.request.setKey "configurations" (.vList configurations2)
  (observation.setKey "request" request2, target2)

/-- Assembly of the project record (the pure tail of `_translate_to_project`).
`full_lco_observation` is serialized before the ra mutation, hence the
un-mutated observation there. -/
def build_project (observation : Val) (calendar_event_id ptr_site : String)
    (c : TranslationParts) : Project × Val :=
  let pn := pyStr c.project_name
  let user_name := c.submitter ++ "(via LCO)"
  let user_id := c.submitter ++ "#LCO"
  let m := mutate_ra observation c
  ({ user_id := user_id, project_name := pn, created_at := c.created_at,
     origin := "LCO",
     full_lco_observation := observation,
     project_id := pn ++ "#" ++ c.created_at,
     start_date := c.start_date, expiry_date := c.expiry_date,
     project_constraints :=
       { ra_offset := c.ra_offset, ra_offset_units := "deg",
         dec_offset := c.dec_offset, dec_offset_units := "deg",
         defocus := c.defocus0,
         lunar_phase_max := c.lunar_phase_max * 100,
         lunar_dist_min := c.lunar_dist_min,
         max_airmass := c.max_airmass,
         project_is_active := true,
         start_date := c.start_date, expiry_date := c.expiry_date },
     project_creator_username := user_name,
     project_creator_user_id := user_id,
     project_priority := "standard",
     project_sites := [ptr_site],
     project_note := "Created automatically with the LCO scheduler",
     scheduled_with_events := [calendar_event_id],
     project_targets := [m.2],
     exposures := c.exposure_sets,
     remaining := c.exposure_sets.map (·.count),
     project_data := c.exposure_sets.map (fun _ => ([] : List Val)) }, m.1)

/-- `Observation._translate_to_project`: yields the project together with the
observation as it stands afterwards (the in-place ra mutation made visible). -/
def translate_to_project (observation : Val) (calendar_event_id ptr_site : String) :
    Except String (Project × Val) :=
  (project_parts observation).map (build_project observation calendar_event_id ptr_site)

/-- The calendar-event dict built by `_translate_to_calendar`.  The source
always sets the correctly spelled `project_priority` to "standard" and, for
time-critical observation types, additionally sets a *misspelled* key
`project_prioirty`; both are modelled as separate fields. -/
structure CalendarEvent where
  event_id : String
  start : String
  end_time : String
  creator : String
  creator_id : String
  last_modified : String
  project_id : String
  project_priority : String
  project_prioirty : Option String
  reservation_note : String
  reservation_type : String
  origin : String
  resourceId : String
  site : String
  title : String
deriving Repr, DecidableEq

/-- `Observation._translate_to_calendar` (called with the project already
translated, as `create_ptr_resources` does via the `hasattr` check). -/
def translate_to_calendar (observation : Val) (calendar_event_id ptr_site project_id : String) :
    Except String CalendarEvent := do
  let start ← (← observation.getKey "start").expectStr
  let end_time ← (← observation.getKey "end").expectStr
  let submitter ← (← observation.getKey "submitter").expectStr
  let modified ← (← observation.getKey "modified").expectStr
  let nameV ← observation.getKey "name"
  let obs_type ← observation.getKey "observation_type"
  let time_critical := match obs_type with
    | .vStr s => s == "RAPID_RESPONSE" || s == "TIME_CRITICAL"
    | _ => false
  .ok { event_id := calendar_event_id, start := start, end_time := end_time,
        creator := submitter, creator_id := submitter ++ "#LCO",
        last_modified := modified, project_id := project_id,
        project_priority := "standard",
        project_prioirty := if time_critical then some "time_critical" else none,
        reservation_note := "This event was created and scheduled by the LCO Scheduler",
        reservation_type := "project", origin := "LCO",
        resourceId := ptr_site, site := ptr_site,
        title := pyStr nameV ++ " (via LCO)" }

/-- One observation of the fetched batch, as processed by the loop body of
`create_latest_schedule_for_subsite`: `Observation(obs)` (validation printed,
site looked up, a fresh uuid drawn — modelled as a counter-derived id)
followed by `create_ptr_resources` (calendar translation + write, then
project post).  Any raised error propagates. -/
def process_obs (counter : Nat) (obs : Val) : Except String (CalendarEvent × Project) := do
  let _ ← validate_observation_format obs
  let wema ← (← obs.getKey "site").expectStr
  let tel ← (← obs.getKey "telescope").expectStr
  let tels ← opt_get_exc (alookup SITE_FROM_WEMA_AND_TELESCOPE_ID wema) ("KeyError: " ++ wema)
  let ptr_site ← opt_get_exc (alookup tels tel) ("KeyError: " ++ tel)
  let calendar_event_id := "uuid-" ++ toString counter
  let pr ← translate_to_project obs calendar_event_id ptr_site
  let ev ← translate_to_calendar pr.2 calendar_event_id ptr_site pr.1.project_id
  .ok (ev, pr.1)

-- ---------------------------------------------------------------------------
-- Store model (calendar table + schedule-tracking table) and the write log
-- ---------------------------------------------------------------------------

/-- The two DynamoDB tables the engine touches.  Tracked schedule times are
modelled as already-parsed instants (integers), since the code compares them
via `datetime.fromisoformat`. -/
structure StoreState where
  calendar : List CalendarEvent
  tracker : List (String × Int)
deriving Repr

/-- Every write/delete the engine can perform, including the remote
project-collaborator posts, logged in execution order. -/
inductive StoreOp where
  | deleteEvent : String → String → StoreOp
  | putEvent : CalendarEvent → StoreOp
  | putTracking : String → Int → StoreOp
  | postNewProject : Project → StoreOp
  | postRemoveProjects : List String → StoreOp
deriving Repr

def StoreOp.isPutTracking : StoreOp → Bool
  | .putTracking _ _ => true
  | _ => false

/-- `calendar_table.put_item` (via `create_calendar_event` in utils.py). -/
def putCalendarEvent (st : StoreState) (e : CalendarEvent) : StoreState :=
  { st with calendar := st.calendar ++ [e] }

/-- `update_last_schedule_time`: upsert on the tracking table. -/
def tracker_put (st : StoreState) (ptr_site : String) (t : Int) : StoreState :=
  { st with tracker :=
      if st.tracker.any (fun p => p.1 == ptr_site) then
        st.tracker.map (fun p => if p.1 == ptr_site then (p.1, t) else p)
      else st.tracker ++ [(ptr_site, t)] }

/-- `get_last_tracked_schedule_time`: point lookup, `None` when absent. -/
def tracker_get (st : StoreState) (ptr_site : String) : Option Int :=
  alookup st.tracker ptr_site

-- ---------------------------------------------------------------------------
-- clear_old_schedule (with DynamoDB 1MB pagination made explicit)
-- ---------------------------------------------------------------------------

/-- Lexicographic (byte-order) comparison on char lists, as DynamoDB compares
string-typed keys. -/
def charsLt : List Char → List Char → Bool
  | [], [] => false
  | [], _ :: _ => true
  | _ :: _, [] => false
  | a :: as, b :: bs =>
    if a.toNat < b.toNat then true
    else if b.toNat < a.toNat then false
    else charsLt as bs

def strLt (a b : String) : Bool :=
  charsLt a.data b.data

/-- Key condition of the `site-end-index` query:
`Key(site).eq(ptr_site) & Key(end).gt(cutoff_time)` (string-typed range
key, so a lexicographic comparison). -/
def eventKeyCond (ptr_site cutoff_time : String) (e : CalendarEvent) : Bool :=
  e.site == ptr_site && strLt cutoff_time e.end_time

/-- `FilterExpression=Attr('origin').eq('LCO')`. -/
def originIsLCO (e : CalendarEvent) : Bool :=
  e.origin == "LCO"

/-- Split a result set into response pages of at most `n` items (the 1MB
response limit, abstracted as a page size); `n = 0` degenerates to a single
page.  The recursion is fueled by the list length so that the definition is
structural and reduces definitionally. -/
def chunksFuel {α : Type} : Nat → Nat → List α → List (List α)
  | 0, _, _ => []
  | fuel + 1, n, l =>
    if l.isEmpty then []
    else if n = 0 then [l]
    else l.take n :: chunksFuel fuel n (l.drop n)

def chunks {α : Type} (n : Nat) (l : List α) : List (List α) :=
  chunksFuel l.length n l

/-- Batch-delete one page worth of items by primary key (event_id, start). -/
def delete_page (st : StoreState) (items : List CalendarEvent) : StoreState × List StoreOp :=
  let keep : CalendarEvent → Bool :=
    fun e => !(items.any (fun d => d.event_id == e.event_id && d.start == e.start))
  ({ st with calendar := st.calendar.filter keep },
   items.map (fun d => .deleteEvent d.event_id d.start))

/-- The query/delete loop of `clear_old_schedule`: each page is filtered by
origin and its items deleted; `items` (the Python variable) ends up holding
the *last* page's filtered items. -/
def run_pages (st : StoreState) (ops : List StoreOp) :
    List (List CalendarEvent) → StoreState × List CalendarEvent × List StoreOp
  | [] => (st, [], ops)
  | [page] =>
      let items := page.filter originIsLCO
      let d := delete_page st items
      (d.1, items, ops ++ d.2)
  | page :: rest =>
      let items := page.filter originIsLCO
      let d := delete_page st items
      run_pages d.1 (ops ++ d.2) rest

/-- `remove_projects`: strips the sentinel ids and posts the bulk delete. -/
def remove_projects_cleaned (project_ids : List String) : List String :=
  project_ids.filter (fun p => !(p == "none#" || p == "none"))

/-- `clear_old_schedule ptr_site cutoff_time` over a store whose matching
items span `pageSize`-sized response pages.  Returns the new store, the
returned `associated_projects` list, and the op log. -/
def clear_old_schedule (pageSize : Nat) (st : StoreState) (ptr_site cutoff_time : String) :
    StoreState × List String × List StoreOp :=
  let matching := st.calendar.filter (eventKeyCond ptr_site cutoff_time)
  let pages := chunks pageSize matching
  let r := run_pages st [] pages
  let associated_projects := r.2.1.map (·.project_id)
  let ops :=
    if associated_projects.isEmpty then r.2.2
    else r.2.2 ++ [.postRemoveProjects (remove_projects_cleaned associated_projects)]
  (r.1, associated_projects, ops)

-- ---------------------------------------------------------------------------
-- create_latest_schedule_for_subsite / import_all_schedules
-- ---------------------------------------------------------------------------

/-- The external world of one invocation: the per-WEMA proxy endpoints (last
schedule time, already parsed; the PENDING-filtered schedule fetch) plus the
current wall-clock time (the default clear cutoff) and the response page
size. -/
structure Env where
  proxy_last_schedule_time : String → Option Int
  schedule : String → String → List Val
  now : String
  pageSize : Nat

/-- The `for obs in sched` loop: each observation is constructed and its PTR
resources created (calendar write, then project post); a raised error aborts
the loop, leaving the writes made so far in place. -/
def process_schedule (counter : Nat) (st : StoreState) (ops : List StoreOp) :
    List Val → Except String Unit × StoreState × List StoreOp
  | [] => (.ok (), st, ops)
  | obs :: rest =>
    match process_obs counter obs with
    | .error e => (.error e, st, ops)
    | .ok (ev, project) =>
        process_schedule (counter + 1) (putCalendarEvent st ev)
          (ops ++ [.putEvent ev, .postNewProject project]) rest

def already_up_to_date_msg (ptr_site : String) : String :=
  "Schedule for " ++ ptr_site ++ " is already up to date"

def updated_msg (ptr_site : String) (n : Nat) : String :=
  "Updated schedule for " ++ ptr_site ++ " with " ++ toString n ++ " observations"

/-- `create_latest_schedule_for_subsite`, returning the result (or the
propagated error), the store afterwards, and the op log of the cycle. -/
def create_latest_schedule_for_subsite (env : Env) (st : StoreState) (ptr_site : String) :
    Except String String × StoreState × List StoreOp :=
  match alookup PTR_SITE_TO_WEMA_TELESCOPE ptr_site with
  | none => (.ok ("Unknown subsite: " ++ ptr_site), st, [])
  | some wt =>
    let last_proxy_schedule_time := env.proxy_last_schedule_time wt.1
    let last_tracked_schedule_time := tracker_get st ptr_site
    let up_to_date : Bool :=
      match last_tracked_schedule_time, last_proxy_schedule_time with
      | some tracked_time, some proxy_time => decide (proxy_time ≤ tracked_time)
      | _, _ => false
    if up_to_date then
      (.ok (already_up_to_date_msg ptr_site), st, [])
    else
      let c := clear_old_schedule env.pageSize st ptr_site env.now
      let sched := env.schedule wt.1 wt.2
      let p := process_schedule 0 c.1 c.2.2 sched
      match p.1 with
      | .error e => (.error e, p.2.1, p.2.2)
      | .ok _ =>
        match last_proxy_schedule_time with
        | some t =>
            (.ok (updated_msg ptr_site sched.length),
             tracker_put p.2.1 ptr_site t,
             p.2.2 ++ [.putTracking ptr_site t])
        | none => (.ok (updated_msg ptr_site sched.length), p.2.1, p.2.2)

/-- The Lambda event dict: `pathParameters` may be absent or null/empty
(`none` models absent-or-null; `some []` an empty dict, which is falsy). -/
structure LambdaEvent where
  httpMethod : Option String
  pathParameters : Option (List (String × String))

def periodic_event : LambdaEvent := ⟨none, none⟩

def http_subsite_event (method ptr_site : String) : LambdaEvent :=
  ⟨some method, some [("subsite", ptr_site)]⟩

/-- The driver's result: either an HTTP-style response or the plain per-site
result map.  `create_response` always uses status 200; map bodies go through
`json.dumps`, kept structured here. -/
inductive DriverResult where
  | http : Nat → String → DriverResult
  | httpMap : Nat → List (String × String) → DriverResult
  | plainMap : List (String × String) → DriverResult
deriving Repr, DecidableEq

/-- The all-subsites loop of `import_all_schedules`: sequential, no error
handling — a raised error propagates with the writes so far. -/
def run_sites (env : Env) (st : StoreState) (acc : List (String × String))
    (ops : List StoreOp) :
    List String → Except String (List (String × String)) × StoreState × List StoreOp
  | [] => (.ok acc, st, ops)
  | s :: rest =>
    let r := create_latest_schedule_for_subsite env st s
    match r.1 with
    | .error e => (.error e, r.2.1, ops ++ r.2.2)
    | .ok m => run_sites env r.2.1 (acc ++ [(s, m)]) (ops ++ r.2.2) rest

/-- The flattened site iteration order of the nested
`for wema in SITES_TO_USE_WITH_SCHEDULER: for ptr_site in PTR_SITES_PER_WEMA[wema]`. -/
def all_ptr_sites : List String :=
  SITES_TO_USE_WITH_SCHEDULER.flatMap (fun w => (alookup PTR_SITES_PER_WEMA w).getD [])

/-- The fall-through path of `import_all_schedules`: reconcile all subsites,
then wrap in an HTTP response exactly when the invocation was HTTP-style. -/
def all_sites_path (env : Env) (st : StoreState) (event : LambdaEvent) :
    Except String DriverResult × StoreState × List StoreOp :=
  let r := run_sites env st [] [] all_ptr_sites
  match r.1 with
  | .error e => (.error e, r.2.1, r.2.2)
  | .ok results =>
      if event.httpMethod.isSome then (.ok (.httpMap 200 results), r.2.1, r.2.2)
      else (.ok (.plainMap results), r.2.1, r.2.2)

/-- `import_all_schedules(event, context)`. -/
def import_all_schedules (env : Env) (st : StoreState) (event : LambdaEvent) :
    Except String DriverResult × StoreState × List StoreOp :=
  let subsite : Option String :=
    match event.httpMethod, event.pathParameters with
    | some _, some params =>
        if params.isEmpty then none else alookup params "subsite"
    | _, _ => none
  match subsite with
  | some ptr_site =>
    if ptr_site == "" then
      all_sites_path env st event
    else
      let r := create_latest_schedule_for_subsite env st ptr_site
      match r.1 with
      | .error e => (.error e, r.2.1, r.2.2)
      | .ok m => (.ok (.http 200 m), r.2.1, r.2.2)
  | none => all_sites_path env st event

-- ---------------------------------------------------------------------------
-- Concrete inputs used by the scenario and defect theorems
-- ---------------------------------------------------------------------------

/-- A fully well-formed upstream observation for telescope 0m31 at WEMA mrc
(shape mirroring the sample data of the repository tests), parameterized by
the observation_type and by the target's dec value, which several claims
vary. -/
def mk_obs (obs_type : String) (dec : Val) : Val :=
  .vDict [
    ("id", .vInt 1001),
    ("site", .vStr "mrc"),
    ("start", .vStr "2025-02-21T01:00:00Z"),
    ("end", .vStr "2025-02-21T02:00:00Z"),
    ("state", .vStr "PENDING"),
    ("submitter", .vStr "alice"),
    ("modified", .vStr "2025-02-20T00:00:00Z"),
    ("created", .vStr "2025-02-19T12:00:00.123456Z"),
    ("name", .vStr "obs-m42"),
    ("telescope", .vStr "0m31"),
    ("observation_type", .vStr obs_type),
    ("request", .vDict [("configurations", .vList [ .vDict [
        ("constraints", .vDict [
            ("max_airmass", .vNum 2),
            ("max_lunar_phase", .vNum (1/2)),
            ("min_lunar_distance", .vNum 30)]),
        ("instrument_configs", .vList [ .vDict [
            ("exposure_count", .vInt 5),
            ("exposure_time", .vNum 10),
            ("mode", .vStr "default"),
            ("extra_params", .vDict [
                ("offset_dec", .vNum 0),
                ("offset_ra", .vNum 0),
                ("rotator_angle", .vNum 0)]),
            ("optical_elements", .vDict [("filter", .vStr "rp")])]]),
        ("target", .vDict [("ra", .vNum 150), ("dec", dec)]),
        ("type", .vStr "EXPOSE")]])])]

def good_obs : Val := mk_obs "NORMAL" (.vNum 20)

/-- A malformed observation (an empty dict): `Observation(obs)` raises
KeyError on `observation["site"]` after the printed validation. -/
def bad_obs : Val := .vDict []

/-- `request.configurations[0].target.ra` of an observation — the field the
mutation claims inspect. -/
def ra_of (observation : Val) : Option Val :=
  match observation.getKey "request" with
  | .error _ => none
  | .ok req => match req.getKey "configurations" with
    | .error _ => none
    | .ok cfgs => match cfgs.expectList with
      | .error _ => none
      | .ok l => match l[0]? with
        | none => none
        | some cfg => match cfg.getKey "target" with
          | .error _ => none
          | .ok t => match t.getKey "ra" with
            | .error _ => none
            | .ok v => some v

/-- Derived accessor: the instrument-config list of the configuration the
translator uses (`request.configurations[0].instrument_configs`). -/
def instrument_configs_of (observation : Val) : Except String (List Val) := do
  let request ← observation.getKey "request"
  let configurations ← (← request.getKey "configurations").expectList
  let configuration ← opt_get_exc (configurations[0]?) "IndexError: configurations"
  (← configuration.getKey "instrument_configs").expectList

def is_ok {α : Type} : Except String α → Bool
  | .ok _ => true
  | .error _ => false

/-- The two sample calendar events of the clear_old_schedule scenario: one
LCO event ending before the cutoff (kept), one ending after it (removed). -/
def ev1 : CalendarEvent :=
  { event_id := "test-event-1", start := "2025-02-15T10:00:00Z",
    end_time := "2025-02-15T11:00:00Z",
    creator := "testuser", creator_id := "testuser#LCO", last_modified := "",
    project_id := "test-project-1", project_priority := "standard",
    project_prioirty := none,
    reservation_note := "", reservation_type := "project", origin := "LCO",
    resourceId := "mrc1", site := "mrc1", title := "t1" }

def ev2 : CalendarEvent :=
  { ev1 with
    event_id := "test-event-2", start := "2025-02-16T10:00:00Z",
    end_time := "2025-02-16T11:00:00Z", project_id := "test-project-2" }

/-- A third matching event, used to exercise pagination. -/
def ev3 : CalendarEvent :=
  { ev1 with
    event_id := "test-event-3", start := "2025-02-17T10:00:00Z",
    end_time := "2025-02-17T11:00:00Z", project_id := "test-project-3" }

/-- Two further matching events with distinct names, for the multi-page
return-value counterexample. -/
def fv1 : CalendarEvent :=
  { ev1 with
    event_id := "f-event-1", start := "2025-03-01T10:00:00Z",
    end_time := "2025-03-01T11:00:00Z", project_id := "proj-a" }

def fv2 : CalendarEvent :=
  { ev1 with
    event_id := "f-event-2", start := "2025-03-02T10:00:00Z",
    end_time := "2025-03-02T11:00:00Z", project_id := "proj-b" }

/-- Environment where the proxy reports schedule time 40 and the schedule is
empty; paired with a tracker already at 50 it exercises the no-op branch. -/
def env_idem : Env :=
  { proxy_last_schedule_time := fun _ => some 40,
    schedule := fun _ _ => [],
    now := "2025-02-15T00:00:00Z", pageSize := 10 }

def st_idem : StoreState := ⟨[], [("mrc1", 50)]⟩

/-- Environment whose mrc/0m31 schedule starts with a malformed observation
followed by a well-formed one. -/
def env_fail : Env :=
  { proxy_last_schedule_time := fun _ => some 100,
    schedule := fun w t => if w == "mrc" && t == "0m31" then [bad_obs, good_obs] else [],
    now := "2025-02-15T00:00:00Z", pageSize := 10 }

-- ---------------------------------------------------------------------------
-- Proof infrastructure
-- ---------------------------------------------------------------------------

theorem exc_bind_inv {α β : Type} {x : Except String α} {f : α → Except String β} {b : β}
    (h : (x >>= f) = .ok b) : ∃ a, x = .ok a ∧ f a = .ok b := by
  cases x with
  | error e => simp [bind, Except.bind] at h
  | ok a => exact ⟨a, rfl, by simpa [bind, Except.bind] using h⟩

theorem exc_map_inv {α β : Type} {x : Except String α} {f : α → β} {b : β}
    (h : x.map f = .ok b) : ∃ a, x = .ok a ∧ f a = b := by
  cases x with
  | error e => simp [Except.map] at h
  | ok a => exact ⟨a, rfl, by simpa [Except.map] using h⟩

theorem expectList_inv {v : Val} {l : List Val} (h : v.expectList = .ok l) :
    v = .vList l := by
  cases v <;> simp [Val.expectList] at h
  simp [h]

theorem expectStr_inv {v : Val} {s : String} (h : v.expectStr = .ok s) :
    v = .vStr s := by
  cases v <;> simp [Val.expectStr] at h
  simp [h]

theorem getKey_inv {t : Val} {k : String} {v : Val} (h : t.getKey k = .ok v) :
    ∃ l q, t = .vDict l ∧ l.find? (fun p => p.1 == k) = some q ∧ q.2 = v := by
  cases t with
  | vDict l =>
    cases hf : l.find? (fun p => p.1 == k) with
    | none => simp [Val.getKey, hf] at h
    | some q =>
      refine ⟨l, q, rfl, hf, ?_⟩
      simpa [Val.getKey, hf] using h
  | vInt n => simp [Val.getKey] at h
  | vNum q => simp [Val.getKey] at h
  | vStr s => simp [Val.getKey] at h
  | vBool b => simp [Val.getKey] at h
  | vList l => simp [Val.getKey] at h
  | vNone => simp [Val.getKey] at h

/-- Updating the value of a key that `find?` can see leaves it findable, with
the new value. -/
theorem find_update_some {β : Type} (l : List (String × β)) (k : String) (w : β) (q : String × β)
    (h : l.find? (fun p => p.1 == k) = some q) :
    ∃ r, (l.map (fun p => if p.1 == k then (p.1, w) else p)).find? (fun p => p.1 == k) = some r ∧
      r.2 = w := by
  induction l with
  | nil => simp at h
  | cons a l ih =>
    by_cases ha : a.1 == k
    · exact ⟨(a.1, w), by simp [List.find?, ha], rfl⟩
    · rw [List.find?_cons_of_neg _ (by simp [ha])] at h
      obtain ⟨r, hr, hw⟩ := ih h
      refine ⟨r, ?_, hw⟩
      simpa [List.find?, ha, List.find?_cons_of_neg] using hr

/-- Appending a fresh binding to a list where the key is absent makes it the
one `find?` returns. -/
theorem find_append_single {β : Type} (l : List (String × β)) (k : String) (w : β)
    (h : l.any (fun p => p.1 == k) = false) :
    (l ++ [(k, w)]).find? (fun p => p.1 == k) = some (k, w) := by
  induction l with
  | nil => simp [List.find?]
  | cons a l ih =>
    simp only [List.any_cons, Bool.or_eq_false_iff] at h
    simp only [List.cons_append]
    rw [List.find?_cons_of_neg _ (by simp [h.1])]
    exact ih h.2

/-- `setKey` on a dict where the key is present: the key now maps to the new
value. -/
theorem getKey_setKey_found {t : Val} {k : String} {v w : Val} (h : t.getKey k = .ok v) :
    (t.setKey k w).getKey k = .ok w := by
  obtain ⟨l, q, rfl, hf, _⟩ := getKey_inv h
  have hpq : (q.1 == k) = true := by
    have := List.find?_some hf
    simpa using this
  have hany : l.any (fun p => p.1 == k) = true :=
    List.any_eq_true.mpr ⟨q, List.mem_of_find?_eq_some hf, hpq⟩
  obtain ⟨r, hr, hw⟩ := find_update_some l k w q hf
  simp only [Val.setKey]
  rw [if_pos hany]
  simp only [Val.getKey]
  rw [hr]
  exact congrArg Except.ok hw

/-- `tracker_put` followed by `tracker_get` on the same site yields the stored
time. -/
theorem tracker_get_put_same (st : StoreState) (ptr_site : String) (t : Int) :
    tracker_get (tracker_put st ptr_site t) ptr_site = some t := by
  simp only [tracker_get, tracker_put, alookup]
  by_cases hany : st.tracker.any (fun p => p.1 == ptr_site)
  · rw [if_pos hany]
    have hsome : (st.tracker.find? (fun p => p.1 == ptr_site)).isSome := by
      rw [List.find?_isSome]
      obtain ⟨x, hx, hpx⟩ := List.any_eq_true.mp hany
      exact ⟨x, hx, hpx⟩
    obtain ⟨q, hq⟩ := Option.isSome_iff_exists.mp hsome
    obtain ⟨r, hr, hw⟩ := find_update_some st.tracker ptr_site t q hq
    rw [hr]
    simp [hw]
  · rw [if_neg hany]
    have hfalse : st.tracker.any (fun p => p.1 == ptr_site) = false := by
      simp only [Bool.not_eq_true] at hany
      exact hany
    rw [find_append_single _ _ _ hfalse]
    rfl

theorem opt_get_exc_inv {α : Type} {o : Option α} {msg : String} {a : α}
    (h : opt_get_exc o msg = .ok a) : o = some a := by
  cases o with
  | none => simp [opt_get_exc] at h
  | some b => simpa [opt_get_exc] using h

theorem mapExcept_ok_length {α β : Type} {f : α → Except String β} :
    ∀ {l : List α} {ys : List β}, mapExcept f l = .ok ys → ys.length = l.length := by
  intro l
  induction l with
  | nil =>
    intro ys h
    simp only [mapExcept, Except.ok.injEq] at h
    subst h
    rfl
  | cons a as ih =>
    intro ys h
    simp only [mapExcept] at h
    obtain ⟨b, _, h⟩ := exc_bind_inv h
    obtain ⟨bs, hbs, h⟩ := exc_bind_inv h
    rw [Except.ok.injEq] at h
    subst h
    simp [ih hbs]

theorem mapExcept_ok_get? {α β : Type} {f : α → Except String β} :
    ∀ {l : List α} {ys : List β}, mapExcept f l = .ok ys →
      ∀ (i : Nat) (a : α), l[i]? = some a → ∃ b, ys[i]? = some b ∧ f a = .ok b := by
  intro l
  induction l with
  | nil =>
    intro ys _ i a ha
    simp at ha
  | cons x xs ih =>
    intro ys h i a ha
    simp only [mapExcept] at h
    obtain ⟨b, hb, h⟩ := exc_bind_inv h
    obtain ⟨bs, hbs, h⟩ := exc_bind_inv h
    rw [Except.ok.injEq] at h
    subst h
    cases i with
    | zero =>
      simp only [List.getElem?_cons_zero] at ha
      rw [Option.some.injEq] at ha
      subst ha
      exact ⟨b, by simp, hb⟩
    | succ j =>
      simp only [List.getElem?_cons_succ] at ha ⊢
      exact ih hbs j a ha

theorem mk_exposure_set_ok_inv {configuration ic : Val} {s : ExposureSet}
    (h : mk_exposure_set configuration ic = .ok s) :
    ∃ etV cntV, ic.getKey "exposure_time" = .ok etV ∧ pyFloat etV = .ok s.exposure ∧
      ic.getKey "exposure_count" = .ok cntV ∧ pyInt cntV = .ok s.count := by
  rw [mk_exposure_set] at h
  obtain ⟨etV, h1, h⟩ := exc_bind_inv h
  obtain ⟨exposure, h2, h⟩ := exc_bind_inv h
  obtain ⟨cntV, h3, h⟩ := exc_bind_inv h
  obtain ⟨count, h4, h⟩ := exc_bind_inv h
  obtain ⟨oe, h5, h⟩ := exc_bind_inv h
  obtain ⟨filterV, h6, h⟩ := exc_bind_inv h
  obtain ⟨imtype, h7, h⟩ := exc_bind_inv h
  obtain ⟨zoom, h8, h⟩ := exc_bind_inv h
  obtain ⟨ep, h9, h⟩ := exc_bind_inv h
  obtain ⟨angleOpt, h10, h⟩ := exc_bind_inv h
  obtain ⟨ora, h11, h⟩ := exc_bind_inv h
  obtain ⟨odec, h12, h⟩ := exc_bind_inv h
  obtain ⟨defOpt, h13, h⟩ := exc_bind_inv h
  rw [Except.ok.injEq] at h
  subst h
  exact ⟨etV, cntV, h1, h2, h3, h4⟩

theorem project_parts_ok_inv {observation : Val} {c : TranslationParts}
    (h : project_parts observation = .ok c) :
    observation.getKey "request" = .ok c.request ∧
    c.request.getKey "configurations" = .ok (.vList c.configurations) ∧
    c.configurations[0]? = some c.configuration ∧
    c.configuration.getKey "instrument_configs" = .ok (.vList c.inst_configs) ∧
    c.configuration.getKey "target" = .ok c.target ∧
    (∃ rav, c.target.getKey "ra" = .ok rav ∧ pyDiv15 rav = .ok c.ra_divided) ∧
    mapExcept (mk_exposure_set c.configuration) c.inst_configs = .ok c.exposure_sets := by
  rw [project_parts] at h
  obtain ⟨request, h1, h⟩ := exc_bind_inv h
  obtain ⟨cfgsV, h2, h⟩ := exc_bind_inv h
  obtain ⟨configurations, h3, h⟩ := exc_bind_inv h
  obtain ⟨configuration, h4, h⟩ := exc_bind_inv h
  obtain ⟨project_name, h5, h⟩ := exc_bind_inv h
  obtain ⟨createdV, h6, h⟩ := exc_bind_inv h
  obtain ⟨createdS, h7, h⟩ := exc_bind_inv h
  obtain ⟨startV, h8, h⟩ := exc_bind_inv h
  obtain ⟨startS, h9, h⟩ := exc_bind_inv h
  obtain ⟨endV, h10, h⟩ := exc_bind_inv h
  obtain ⟨endS, h11, h⟩ := exc_bind_inv h
  obtain ⟨submitterV, h12, h⟩ := exc_bind_inv h
  obtain ⟨submitter, h13, h⟩ := exc_bind_inv h
  obtain ⟨icsV, h14, h⟩ := exc_bind_inv h
  obtain ⟨inst_configs, h15, h⟩ := exc_bind_inv h
  obtain ⟨ic0, h16, h⟩ := exc_bind_inv h
  obtain ⟨ep0, h17, h⟩ := exc_bind_inv h
  obtain ⟨ra_offset, h18, h⟩ := exc_bind_inv h
  obtain ⟨dec_offset, h19, h⟩ := exc_bind_inv h
  obtain ⟨defocusOpt, h20, h⟩ := exc_bind_inv h
  obtain ⟨constraints, h21, h⟩ := exc_bind_inv h
  obtain ⟨lpV, h22, h⟩ := exc_bind_inv h
  obtain ⟨lunar_phase_max, h23, h⟩ := exc_bind_inv h
  obtain ⟨ldV, h24, h⟩ := exc_bind_inv h
  obtain ⟨lunar_dist_min, h25, h⟩ := exc_bind_inv h
  obtain ⟨maV, h26, h⟩ := exc_bind_inv h
  obtain ⟨max_airmass, h27, h⟩ := exc_bind_inv h
  obtain ⟨target, h28, h⟩ := exc_bind_inv h
  obtain ⟨ra_original, h29, h⟩ := exc_bind_inv h
  obtain ⟨ra_divided, h30, h⟩ := exc_bind_inv h
  obtain ⟨exposure_sets, h31, h⟩ := exc_bind_inv h
  rw [Except.ok.injEq] at h
  subst h
  rw [expectList_inv h3] at h2
  rw [expectList_inv h15] at h14
  exact ⟨h1, h2, opt_get_exc_inv h4, h14, h28, ⟨ra_original, h29, h30⟩, h31⟩

theorem translate_to_project_ok_inv {observation : Val} {eid ptr_site : String}
    {p : Project} {obs2 : Val}
    (h : translate_to_project observation eid ptr_site = .ok (p, obs2)) :
    ∃ c, project_parts observation = .ok c ∧
      p = (build_project observation eid ptr_site c).1 ∧
      obs2 = (build_project observation eid ptr_site c).2 := by
  obtain ⟨c, hc, hb⟩ := exc_map_inv h
  exact ⟨c, hc, by rw [hb], by rw [hb]⟩

/-- C9: aligned progress arrays in every translated project.  For every
observation that translates successfully, `len(remaining) == len(project_data)
== len(exposures)`, each `project_data[i]` is an empty list, and each
`remaining[i]` is the (int-cast) `exposure_count` declared in the i-th
instrument config of the configuration used
(`request.configurations[0].instrument_configs`). -/
theorem translate_project_progress_arrays_aligned
    (observation : Val) (calendar_event_id ptr_site : String) (p : Project) (obs2 : Val)
    (h : translate_to_project observation calendar_event_id ptr_site = .ok (p, obs2)) :
    p.remaining.length = p.project_data.length ∧
    p.project_data.length = p.exposures.length ∧
    (∀ d ∈ p.project_data, d = ([] : List Val)) ∧
    (∀ i : Nat, p.remaining[i]? = (p.exposures[i]?).map (fun s => s.count)) ∧
    ∃ ics, instrument_configs_of observation = .ok ics ∧
      ics.length = p.exposures.length ∧
      ∀ (i : Nat) (ic : Val), ics[i]? = some ic →
        ∃ cntV n, ic.getKey "exposure_count" = .ok cntV ∧ pyInt cntV = .ok n ∧
          p.remaining[i]? = some n := by
  obtain ⟨c, hc, hp, _⟩ := translate_to_project_ok_inv h
  obtain ⟨A1, A2, A3, A4, A5, A6, A7⟩ := project_parts_ok_inv hc
  subst hp
  refine ⟨by simp [build_project], by simp [build_project], ?_, ?_, ?_⟩
  · intro d hd
    simp only [build_project, List.mem_map] at hd
    obtain ⟨_, _, hd⟩ := hd
    exact hd.symm
  · intro i
    simp [build_project, List.getElem?_map]
  · refine ⟨c.inst_configs, ?_, ?_, ?_⟩
    · simp [instrument_configs_of, A1, A2, A3, A4, bind, Except.bind, Val.expectList, opt_get_exc]
    · have := mapExcept_ok_length A7
      simp [build_project, this]
    · intro i ic hic
      obtain ⟨s, hs, hmk⟩ := mapExcept_ok_get? A7 i ic hic
      obtain ⟨etV, cntV, _, _, hcnt, hint⟩ := mk_exposure_set_ok_inv hmk
      refine ⟨cntV, s.count, hcnt, hint, ?_⟩
      simp [build_project, List.getElem?_map, hs]

/-- Witness for C9 at the concrete well-formed observation. -/
theorem translate_project_progress_arrays_aligned_witness :
    (match translate_to_project good_obs "uuid-0" "mrc1" with
     | .ok pr => pr.1.remaining.length == pr.1.project_data.length &&
                 pr.1.project_data.length == pr.1.exposures.length
     | .error _ => false) = true := by
  cases hok : translate_to_project good_obs "uuid-0" "mrc1" with
  | error e =>
    have hok2 : is_ok (translate_to_project good_obs "uuid-0" "mrc1") = true := rfl
    rw [hok] at hok2
    simp [is_ok] at hok2
  | ok pr =>
    obtain ⟨l1, l2, _, _, _⟩ :=
      translate_project_progress_arrays_aligned good_obs "uuid-0" "mrc1" pr.1 pr.2 (by rw [hok])
    simp [l1, l2]

/-- C7 (amended): `_translate_to_project` mutates its input through the shared
target dict — after a successful translation the observation's
`request.configurations[0].target.ra` holds the original value divided by 15
(the same value the project's `project_targets[0]` carries), not the original
value. -/
theorem translate_divides_ra_in_place
    (observation : Val) (calendar_event_id ptr_site : String) (p : Project) (obs2 : Val)
    (h : translate_to_project observation calendar_event_id ptr_site = .ok (p, obs2)) :
    ∃ rav rad,
      ra_of observation = some rav ∧ pyDiv15 rav = .ok rad ∧
      ra_of obs2 = some rad ∧
      ∃ t2, p.project_targets = [t2] ∧ t2.getKey "ra" = .ok rad := by
  obtain ⟨c, hc, hp, hobs2⟩ := translate_to_project_ok_inv h
  obtain ⟨A1, A2, A3, A4, A5, ⟨rav, hra, hdiv⟩, A7⟩ := project_parts_ok_inv hc
  subst hp
  subst hobs2
  refine ⟨rav, c.ra_divided, ?_, hdiv, ?_, ?_⟩
  · simp [ra_of, A1, A2, Val.expectList, A3, A5, hra]
  · obtain ⟨cfg0, tail, hcfgs⟩ : ∃ cfg0 tail, c.configurations = cfg0 :: tail := by
      cases hl : c.configurations with
      | nil => rw [hl] at A3; simp at A3
      | cons a t => exact ⟨a, t, rfl⟩
    have hcfg0 : cfg0 = c.configuration := by
      rw [hcfgs] at A3
      simpa using A3
    subst hcfg0
    have g1 := getKey_setKey_found (w := ((c.request.setKey "configurations"
      (Val.vList ((c.configurations).set 0 (c.configuration.setKey "target"
        (c.target.setKey "ra" c.ra_divided))))))) A1
    have g2 := getKey_setKey_found (w := (Val.vList ((c.configurations).set 0
      (c.configuration.setKey "target" (c.target.setKey "ra" c.ra_divided))))) A2
    have g3 := getKey_setKey_found (w := (c.target.setKey "ra" c.ra_divided)) A5
    have g4 := getKey_setKey_found (w := c.ra_divided) hra
    rw [hcfgs] at g1 g2
    simp only [List.set_cons_zero] at g1 g2
    simp only [build_project, mutate_ra]
    rw [hcfgs]
    simp only [List.set_cons_zero]
    simp [ra_of, g1, g2, Val.expectList, g3, g4]
  · refine ⟨c.target.setKey "ra" c.ra_divided, ?_, getKey_setKey_found hra⟩
    simp [build_project, mutate_ra]

/-- Counterexample for C7 as stated: at the concrete well-formed observation
with target ra = 150, the observation seen after translation carries
ra = 150/15 = 10, not its original value 150. -/
theorem translate_mutates_ra_cx :
    ra_of good_obs = some (.vNum 150) ∧
    (match translate_to_project good_obs "uuid-0" "mrc1" with
     | .ok pr => ra_of pr.2
     | .error _ => none) = some (.vNum (150 / 15)) ∧
    (150 / 15 : ℚ) = 10 ∧ (10 : ℚ) ≠ 150 := by
  refine ⟨rfl, by rfl, by norm_num, by norm_num⟩

/-- Witness for the amended C7 at a concrete input. -/
theorem translate_divides_ra_in_place_witness :
    (match translate_to_project good_obs "uuid-1" "mrc1" with
     | .ok pr => (ra_of pr.2).isSome
     | .error _ => false) = true := by
  cases hok : translate_to_project good_obs "uuid-1" "mrc1" with
  | error e =>
    have h2 : is_ok (translate_to_project good_obs "uuid-1" "mrc1") = true := rfl
    rw [hok] at h2
    simp [is_ok] at h2
  | ok pr =>
    obtain ⟨rav, rad, _, _, hra2, _⟩ :=
      translate_divides_ra_in_place good_obs "uuid-1" "mrc1" pr.1 pr.2 (by rw [hok])
    simp [hra2]

/-- Counterexample for C6 as stated: an observation whose target dec is a
non-numeric string fails shape validation, yet the full per-observation
pipeline (validation print, site lookup, project and calendar translation)
succeeds. -/
theorem validation_gate_cx :
    validate_observation_format (mk_obs "NORMAL" (.vStr "not-a-number")) =
      .ok (false, "Configuration number 0 failed validation: Targets failed validation") ∧
    is_ok (process_obs 0 (mk_obs "NORMAL" (.vStr "not-a-number"))) = true := ⟨rfl, rfl⟩

/-- C6 (amended): validation does not gate translation — its verdict is
computed (printed) and discarded.  For every non-numeric dec value the
observation fails validation with the targets-failed reason, and translation
to project and calendar reservation still succeeds. -/
theorem validation_does_not_gate_translation (d : Val) (hd : d.isInstNum = false) :
    validate_observation_format (mk_obs "NORMAL" d) =
      .ok (false, "Configuration number 0 failed validation: Targets failed validation") ∧
    is_ok (process_obs 0 (mk_obs "NORMAL" d)) = true := by
  cases d with
  | vInt n => simp [Val.isInstNum] at hd
  | vNum q => simp [Val.isInstNum] at hd
  | vBool b => simp [Val.isInstNum] at hd
  | vStr s => exact ⟨rfl, rfl⟩
  | vDict l => exact ⟨rfl, rfl⟩
  | vList l => exact ⟨rfl, rfl⟩
  | vNone => exact ⟨rfl, rfl⟩

/-- Witness for the amended C6 at a concrete non-numeric dec. -/
theorem validation_does_not_gate_translation_witness :
    Val.isInstNum (.vStr "xq") = false ∧
    is_ok (process_obs 0 (mk_obs "NORMAL" (.vStr "xq"))) = true :=
  ⟨rfl, (validation_does_not_gate_translation (.vStr "xq") rfl).2⟩

/-- C8: the source tags time-critical observation types on a *misspelled* key.
For RAPID_RESPONSE and TIME_CRITICAL observations the correctly spelled
`project_priority` stays "standard" while `project_prioirty` is set to
"time_critical"; for ordinary observations the misspelled key is absent. -/
theorem time_critical_sets_misspelled_key :
    (match process_obs 0 (mk_obs "RAPID_RESPONSE" (.vNum 20)) with
     | .ok pr => pr.1.project_priority == "standard" && pr.1.project_prioirty == some "time_critical"
     | .error _ => false) = true ∧
    (match process_obs 0 (mk_obs "TIME_CRITICAL" (.vNum 20)) with
     | .ok pr => pr.1.project_priority == "standard" && pr.1.project_prioirty == some "time_critical"
     | .error _ => false) = true ∧
    (match process_obs 0 good_obs with
     | .ok pr => pr.1.project_priority == "standard" && pr.1.project_prioirty == none
     | .error _ => false) = true := ⟨rfl, rfl, rfl⟩

/-- C1: idempotence of reconciliation.  First conjunct: when both the proxy
time and the tracked time are present and the proxy time is not later, the
cycle returns the already-up-to-date status, leaves the store unchanged, and
performs zero store writes.  Second conjunct: whatever a first successful run
did, a second run against an unchanged proxy time is such a no-op. -/
theorem create_latest_schedule_noop_and_idempotent
    (env : Env) (st : StoreState) (ptr_site : String) (wt : String × String) (p : Int)
    (hmap : alookup PTR_SITE_TO_WEMA_TELESCOPE ptr_site = some wt)
    (hpx : env.proxy_last_schedule_time wt.1 = some p) :
    (∀ t, tracker_get st ptr_site = some t → p ≤ t →
       create_latest_schedule_for_subsite env st ptr_site =
         (.ok (already_up_to_date_msg ptr_site), st, [])) ∧
    (∀ m st1 ops1,
       create_latest_schedule_for_subsite env st ptr_site = (.ok m, st1, ops1) →
       create_latest_schedule_for_subsite env st1 ptr_site =
         (.ok (already_up_to_date_msg ptr_site), st1, [])) := by
  constructor
  · intro t htr hle
    rw [create_latest_schedule_for_subsite, hmap]
    simp [hpx, htr, hle]
  · intro m st1 ops1 h1
    rw [create_latest_schedule_for_subsite, hmap] at h1
    simp only [hpx] at h1
    split at h1
    · rename_i hcond
      simp only [Prod.mk.injEq, Except.ok.injEq] at h1
      obtain ⟨hm, hst, hops⟩ := h1
      subst hst
      cases htg : tracker_get st ptr_site with
      | none => rw [htg] at hcond; simp at hcond
      | some t =>
        rw [htg] at hcond
        have hle : p ≤ t := of_decide_eq_true hcond
        rw [create_latest_schedule_for_subsite, hmap]
        simp [hpx, htg, hle]
    · rename_i hcond
      cases hps : (process_schedule 0
          (clear_old_schedule env.pageSize st ptr_site env.now).1
          (clear_old_schedule env.pageSize st ptr_site env.now).2.2
          (env.schedule wt.1 wt.2)).1 with
      | error e =>
        rw [hps] at h1
        simp only [Prod.mk.injEq] at h1
        exact absurd h1.1 (by simp)
      | ok u =>
        rw [hps] at h1
        simp only [Prod.mk.injEq, Except.ok.injEq] at h1
        obtain ⟨hm, hst, hops⟩ := h1
        subst hst
        rw [create_latest_schedule_for_subsite, hmap]
        simp [hpx, tracker_get_put_same]

/-- Witness for C1 at a concrete environment: tracker at 50, proxy at 40. -/
theorem create_latest_schedule_noop_and_idempotent_witness :
    tracker_get st_idem "mrc1" = some 50 ∧
    env_idem.proxy_last_schedule_time "mrc" = some 40 ∧
    create_latest_schedule_for_subsite env_idem st_idem "mrc1" =
      (.ok (already_up_to_date_msg "mrc1"), st_idem, []) := by
  refine ⟨rfl, rfl, ?_⟩
  exact (create_latest_schedule_noop_and_idempotent env_idem st_idem "mrc1" ("mrc", "0m31") 40
    (by decide) rfl).1 50 rfl (by decide)

/-- C10: an HTTP-style invocation naming an unconfigured subsite returns an
HTTP response with statusCode 200 whose body is the "Unknown subsite" string;
the store is untouched and the op log empty, for every environment — no
calendar, project, or tracking access can influence or be influenced by the
call. -/
theorem unknown_subsite_http_200_no_writes
    (env : Env) (st : StoreState) (ptr_site method : String)
    (hmap : alookup PTR_SITE_TO_WEMA_TELESCOPE ptr_site = none)
    (hne : ptr_site ≠ "") :
    import_all_schedules env st
        { httpMethod := some method, pathParameters := some [("subsite", ptr_site)] } =
      (.ok (.http 200 ("Unknown subsite: " ++ ptr_site)), st, []) := by
  have hbe : (ptr_site == "") = false := beq_eq_false_iff_ne.mpr hne
  rw [import_all_schedules]
  simp only [alookup, List.find?, List.isEmpty_cons]
  simp [hbe, create_latest_schedule_for_subsite, hmap]

/-- Witness for C10 at the concrete unknown subsite "sq0". -/
theorem unknown_subsite_http_200_no_writes_witness :
    alookup PTR_SITE_TO_WEMA_TELESCOPE "sq0" = none ∧
    import_all_schedules env_idem ⟨[], []⟩
        { httpMethod := some "GET", pathParameters := some [("subsite", "sq0")] } =
      (.ok (.http 200 ("Unknown subsite: " ++ "sq0")), ⟨[], []⟩, []) :=
  ⟨by decide, unknown_subsite_http_200_no_writes env_idem ⟨[], []⟩ "sq0" "GET" (by decide) (by decide)⟩

theorem process_schedule_tracker (sched : List Val) :
    ∀ c st ops, (process_schedule c st ops sched).2.1.tracker = st.tracker := by
  induction sched with
  | nil => intro c st ops; rfl
  | cons x xs ih =>
    intro c st ops
    simp only [process_schedule]
    cases process_obs c x with
    | error e => rfl
    | ok pr => exact ih (c + 1) (putCalendarEvent st pr.1) (ops ++ [.putEvent pr.1, .postNewProject pr.2])

theorem run_pages_tracker :
    ∀ (pages : List (List CalendarEvent)) st ops, (run_pages st ops pages).1.tracker = st.tracker := by
  intro pages
  induction pages with
  | nil => intro st ops; rfl
  | cons page rest ih =>
    intro st ops
    cases rest with
    | nil => rfl
    | cons q qs => exact ih _ _

theorem clear_old_schedule_tracker (n : Nat) (st : StoreState) (s cut : String) :
    (clear_old_schedule n st s cut).1.tracker = st.tracker := by
  simp only [clear_old_schedule]
  exact run_pages_tracker _ _ _

theorem process_schedule_fails (bad : Val) (hbad : ∀ c, is_ok (process_obs c bad) = false) :
    ∀ (pre : List Val) c st ops post,
      ∃ e, (process_schedule c st ops (pre ++ bad :: post)).1 = .error e := by
  intro pre
  induction pre with
  | nil =>
    intro c st ops post
    simp only [List.nil_append, process_schedule]
    cases hpo : process_obs c bad with
    | error e => exact ⟨e, rfl⟩
    | ok pr =>
      have := hbad c
      rw [hpo] at this
      simp [is_ok] at this
  | cons x xs ih =>
    intro c st ops post
    simp only [List.cons_append, process_schedule]
    cases hpo : process_obs c x with
    | error e => exact ⟨e, rfl⟩
    | ok pr => exact ih (c + 1) _ _ post

theorem process_schedule_post_irrelevant (bad : Val)
    (hbad : ∀ c, is_ok (process_obs c bad) = false) :
    ∀ (pre : List Val) c st ops post post2,
      process_schedule c st ops (pre ++ bad :: post) =
      process_schedule c st ops (pre ++ bad :: post2) := by
  intro pre
  induction pre with
  | nil =>
    intro c st ops post post2
    simp only [List.nil_append, process_schedule]
    cases hpo : process_obs c bad with
    | error e => rfl
    | ok pr =>
      have := hbad c
      rw [hpo] at this
      simp [is_ok] at this
  | cons x xs ih =>
    intro c st ops post post2
    simp only [List.cons_append, process_schedule]
    cases hpo : process_obs c x with
    | error e => rfl
    | ok pr => exact ih (c + 1) _ _ post post2

/-- C2 (amended): a translation failure for one observation aborts the whole
batch.  The cycle's result is a raised error, the tracker is left untouched
(no record step), and the observations after the first failing one are
irrelevant — the loop never reaches them. -/
theorem batch_failure_aborts_cycle
    (env : Env) (st : StoreState) (ptr_site : String) (wt : String × String)
    (bad : Val) (pre post : List Val)
    (hmap : alookup PTR_SITE_TO_WEMA_TELESCOPE ptr_site = some wt)
    (hfresh : tracker_get st ptr_site = none)
    (hbad : ∀ c, is_ok (process_obs c bad) = false)
    (hsched : env.schedule wt.1 wt.2 = pre ++ bad :: post) :
    (∃ e, (create_latest_schedule_for_subsite env st ptr_site).1 = .error e) ∧
    (create_latest_schedule_for_subsite env st ptr_site).2.1.tracker = st.tracker ∧
    (∀ c st2 ops post2, process_schedule c st2 ops (pre ++ bad :: post) =
        process_schedule c st2 ops (pre ++ bad :: post2)) := by
  obtain ⟨e, he⟩ := process_schedule_fails bad hbad pre 0
    (clear_old_schedule env.pageSize st ptr_site env.now).1
    (clear_old_schedule env.pageSize st ptr_site env.now).2.2 post
  refine ⟨⟨e, ?_⟩, ?_, fun c st2 ops post2 => process_schedule_post_irrelevant bad hbad pre c st2 ops post post2⟩
  · rw [create_latest_schedule_for_subsite, hmap]
    simp only [hfresh, hsched]
    cases hps : (process_schedule 0
        (clear_old_schedule env.pageSize st ptr_site env.now).1
        (clear_old_schedule env.pageSize st ptr_site env.now).2.2
        (pre ++ bad :: post)).1 with
    | error e2 =>
      rw [he] at hps
      rw [Except.error.injEq] at hps
      subst hps
      rfl
    | ok u => rw [he] at hps; exact absurd hps (by simp)
  · rw [create_latest_schedule_for_subsite, hmap]
    simp only [hfresh, hsched]
    cases hps : (process_schedule 0
        (clear_old_schedule env.pageSize st ptr_site env.now).1
        (clear_old_schedule env.pageSize st ptr_site env.now).2.2
        (pre ++ bad :: post)).1 with
    | error e2 =>
      have h1 := process_schedule_tracker (pre ++ bad :: post) 0
        (clear_old_schedule env.pageSize st ptr_site env.now).1
        (clear_old_schedule env.pageSize st ptr_site env.now).2.2
      have h2 := clear_old_schedule_tracker env.pageSize st ptr_site env.now
      simpa using h1.trans h2
    | ok u => rw [he] at hps; exact absurd hps (by simp)

/-- Counterexample for C2 as stated: the fetched batch is a malformed
observation followed by a well-formed one (which on its own would translate,
second conjunct); the cycle raises and ends with an empty op log — the
well-formed observation is never persisted and the tracker-record step never
runs. -/
theorem batch_failure_aborts_cycle_cx :
    env_fail.schedule "mrc" "0m31" = [bad_obs, good_obs] ∧
    is_ok (process_obs 1 good_obs) = true ∧
    create_latest_schedule_for_subsite env_fail ⟨[], []⟩ "mrc1" =
      (.error "KeyError: site", ⟨[], []⟩, []) := ⟨rfl, rfl, rfl⟩

/-- Witness for the amended C2 at the concrete failing batch. -/
theorem batch_failure_aborts_cycle_witness :
    (∃ e, (create_latest_schedule_for_subsite env_fail ⟨[], []⟩ "mrc1").1 = .error e) ∧
    (create_latest_schedule_for_subsite env_fail ⟨[], []⟩ "mrc1").2.1.tracker = [] := by
  have H := batch_failure_aborts_cycle env_fail ⟨[], []⟩ "mrc1" ("mrc", "0m31") bad_obs [] [good_obs]
    (by decide) rfl (fun c => rfl) rfl
  exact ⟨H.1, H.2.1⟩

/-- C3 (amended): the multi-site driver has no per-site error handling — when
reconciling the first configured site raises, the error propagates out of
`import_all_schedules` with the state and ops of the failed cycle; no
per-site result map is produced and the remaining sites are never visited. -/
theorem driver_error_propagation
    (env : Env) (st : StoreState) (e : String) (st1 : StoreState) (ops1 : List StoreOp)
    (h : create_latest_schedule_for_subsite env st "mrc1" = (.error e, st1, ops1)) :
    import_all_schedules env st periodic_event = (.error e, st1, ops1) := by
  rw [import_all_schedules]
  simp only [periodic_event]
  rw [all_sites_path]
  have hs : all_ptr_sites = ["mrc1", "mrc2", "aro1", "eco1", "eco2"] := by decide
  rw [hs]
  simp only [run_sites, h]
  simp

/-- Counterexample for C3 as stated: on a periodic invocation where mrc1's
batch contains a malformed observation, the driver returns a raised error —
not a complete per-site result map with the failure recorded inside it. -/
theorem driver_error_propagation_cx :
    import_all_schedules env_fail ⟨[], []⟩ periodic_event =
      (.error "KeyError: site", ⟨[], []⟩, []) := rfl

/-- Witness for the amended C3 at a concrete store. -/
theorem driver_error_propagation_witness :
    import_all_schedules env_fail ⟨[], [("mrc2", 7)]⟩ periodic_event =
      (.error "KeyError: site", ⟨[], [("mrc2", 7)]⟩, []) := by
  have h : create_latest_schedule_for_subsite env_fail ⟨[], [("mrc2", 7)]⟩ "mrc1" =
      (.error "KeyError: site", ⟨[], [("mrc2", 7)]⟩, []) := rfl
  exact driver_error_propagation env_fail ⟨[], [("mrc2", 7)]⟩ _ _ _ h

theorem chunksFuel_nil {α : Type} (fuel n : Nat) : chunksFuel fuel n ([] : List α) = [] := by
  cases fuel with
  | zero => rfl
  | succ f => rfl

theorem chunksFuel_flatten {α : Type} :
    ∀ (fuel n : Nat) (l : List α), l.length ≤ fuel → (chunksFuel fuel n l).flatten = l := by
  intro fuel
  induction fuel with
  | zero =>
    intro n l hl
    have h0 : l = [] := List.eq_nil_of_length_eq_zero (Nat.le_zero.mp hl)
    subst h0
    rfl
  | succ f ih =>
    intro n l hl
    by_cases he : l.isEmpty
    · have h0 : l = [] := by simpa [List.isEmpty_iff] using he
      subst h0
      rfl
    · rw [chunksFuel]
      rw [if_neg (by simpa using he)]
      by_cases hn : n = 0
      · rw [if_pos hn]
        simp
      · rw [if_neg hn]
        simp only [List.flatten_cons]
        rw [ih n (l.drop n) (by simp only [List.length_drop]; omega)]
        exact List.take_append_drop n l

theorem chunks_flatten {α : Type} (n : Nat) (l : List α) : (chunks n l).flatten = l :=
  chunksFuel_flatten l.length n l (Nat.le_refl _)

/-- When every match fits in one page, paging yields a single page. -/
theorem chunks_single_page {α : Type} (n : Nat) (l : List α) (hne : l ≠ []) (hfit : l.length ≤ n) :
    chunks n l = [l] := by
  have hn : n ≠ 0 := by
    intro h0
    subst h0
    exact hne (List.eq_nil_of_length_eq_zero (Nat.le_zero.mp hfit))
  cases hf : l.length with
  | zero => exact absurd (List.eq_nil_of_length_eq_zero hf) hne
  | succ k =>
    rw [chunks, hf]
    rw [chunksFuel]
    rw [if_neg (by simpa [List.isEmpty_iff] using hne), if_neg hn]
    rw [List.take_of_length_le hfit, List.drop_eq_nil_of_le hfit, chunksFuel_nil]

theorem flatten_map_filter {α : Type} (p : α → Bool) :
    ∀ (L : List (List α)), ((L.map (fun l => l.filter p)).flatten) = L.flatten.filter p := by
  intro L
  induction L with
  | nil => rfl
  | cons a L ih =>
    simp only [List.map_cons, List.flatten_cons, List.filter_append, ih]

theorem run_pages_spec :
    ∀ (pages : List (List CalendarEvent)) (st : StoreState) (ops : List StoreOp),
      (run_pages st ops pages).1.calendar =
        st.calendar.filter (fun e =>
          !(((pages.map (fun pg => pg.filter originIsLCO)).flatten).any
              (fun d => d.event_id == e.event_id && d.start == e.start))) ∧
      (run_pages st ops pages).2.1 =
        (pages.getLast?.getD []).filter originIsLCO := by
  intro pages
  induction pages with
  | nil =>
    intro st ops
    constructor
    · show st.calendar = _
      simp
    · rfl
  | cons page rest ih =>
    intro st ops
    cases rest with
    | nil =>
      constructor
      · show (delete_page st (page.filter originIsLCO)).1.calendar = _
        simp only [delete_page]
        apply List.filter_congr
        intro e he
        simp
      · show page.filter originIsLCO = _
        simp
    | cons q qs =>
      have ihh := ih (delete_page st (page.filter originIsLCO)).1
        (ops ++ (delete_page st (page.filter originIsLCO)).2)
      constructor
      · have hstep : run_pages st ops (page :: q :: qs) =
            run_pages (delete_page st (page.filter originIsLCO)).1
              (ops ++ (delete_page st (page.filter originIsLCO)).2) (q :: qs) := rfl
        rw [hstep, ihh.1]
        simp only [delete_page, List.filter_filter]
        apply List.filter_congr
        intro e he
        simp only [List.map_cons, List.flatten_cons, List.any_append]
        cases hA : (page.filter originIsLCO).any
            (fun d => d.event_id == e.event_id && d.start == e.start) with
        | true => simp [hA]
        | false => simp [hA]
      · have hstep : run_pages st ops (page :: q :: qs) =
            run_pages (delete_page st (page.filter originIsLCO)).1
              (ops ++ (delete_page st (page.filter originIsLCO)).2) (q :: qs) := rfl
        rw [hstep, ihh.2]
        simp

/-- C4 (amended): the clear step deletes exactly the stored events whose site
matches, whose end is strictly after the cutoff, and whose origin is LCO —
across all result pages (first conjunct, for stores with unique primary
keys).  The returned project ids are those of the deleted events *of the
final result page*; when all matches fit in one page this is every deleted
event's project id (second conjunct), as in the given scenario (third
conjunct): of the two LCO events ending 2025-02-15T11:00:00Z and
2025-02-16T11:00:00Z, with cutoff 2025-02-15T23:00:00Z exactly the second is
deleted and ["test-project-2"] is returned. -/
theorem clear_old_schedule_exact :
    (∀ (pageSize : Nat) (st : StoreState) (ptr_site cutoff_time : String),
      (st.calendar.map (fun e => (e.event_id, e.start))).Nodup →
      ((clear_old_schedule pageSize st ptr_site cutoff_time).1.calendar =
        st.calendar.filter (fun e => !(eventKeyCond ptr_site cutoff_time e && originIsLCO e))) ∧
      ((st.calendar.filter (eventKeyCond ptr_site cutoff_time)).length ≤ pageSize →
        (clear_old_schedule pageSize st ptr_site cutoff_time).2.1 =
          (st.calendar.filter (fun e => eventKeyCond ptr_site cutoff_time e && originIsLCO e)).map
            (fun e => e.project_id))) ∧
    clear_old_schedule 100 ⟨[ev1, ev2], []⟩ "mrc1" "2025-02-15T23:00:00Z" =
      (⟨[ev1], []⟩, ["test-project-2"],
       [.deleteEvent "test-event-2" "2025-02-16T10:00:00Z",
        .postRemoveProjects ["test-project-2"]]) := by
  refine ⟨?_, rfl⟩
  intro pageSize st ptr_site cutoff_time hnodup
  have hrp := run_pages_spec
    (chunks pageSize (st.calendar.filter (eventKeyCond ptr_site cutoff_time))) st []
  have hcomb : st.calendar.filter (fun e => eventKeyCond ptr_site cutoff_time e && originIsLCO e) =
      (st.calendar.filter (eventKeyCond ptr_site cutoff_time)).filter originIsLCO := by
    rw [List.filter_filter]
    apply List.filter_congr
    intro e _
    exact Bool.and_comm _ _
  constructor
  · show (run_pages st []
        (chunks pageSize (st.calendar.filter (eventKeyCond ptr_site cutoff_time)))).1.calendar = _
    rw [hrp.1]
    rw [flatten_map_filter, chunks_flatten]
    apply List.filter_congr
    intro e he
    have hany : ((st.calendar.filter (eventKeyCond ptr_site cutoff_time)).filter
          originIsLCO).any (fun d => d.event_id == e.event_id && d.start == e.start) =
        (eventKeyCond ptr_site cutoff_time e && originIsLCO e) := by
      cases hc : (eventKeyCond ptr_site cutoff_time e && originIsLCO e) with
      | true =>
        apply List.any_eq_true.mpr
        refine ⟨e, ?_, by simp⟩
        rw [← hcomb]
        exact List.mem_filter.mpr ⟨he, hc⟩
      | false =>
        apply List.any_eq_false.mpr
        intro d hd hpd
        rw [← hcomb] at hd
        obtain ⟨hdcal, hdc⟩ := List.mem_filter.mp hd
        have hkeys : (fun x => (x.event_id, x.start)) d = (fun x => (x.event_id, x.start)) e := by
          simp only [beq_iff_eq, Bool.and_eq_true] at hpd
          simp [hpd.1, hpd.2]
        have hde : d = e := List.inj_on_of_nodup_map hnodup hdcal he hkeys
        subst hde
        rw [hdc] at hc
        cases hc
    rw [hany]
  · intro hfit
    by_cases hm : st.calendar.filter (eventKeyCond ptr_site cutoff_time) = []
    · show ((run_pages st []
          (chunks pageSize (st.calendar.filter (eventKeyCond ptr_site cutoff_time)))).2.1).map
            (fun e => e.project_id) = _
      rw [hrp.2, hcomb, hm]
      have hch : chunks pageSize ([] : List CalendarEvent) = [] := by
        rw [chunks]
        rfl
      rw [hch]
      rfl
    · show ((run_pages st []
          (chunks pageSize (st.calendar.filter (eventKeyCond ptr_site cutoff_time)))).2.1).map
            (fun e => e.project_id) = _
      rw [hrp.2, hcomb, chunks_single_page _ _ hm hfit]
      rfl

/-- Witness for the amended C4 at the scenario store. -/
theorem clear_old_schedule_exact_witness :
    (([ev1, ev2].map (fun e => (e.event_id, e.start))).Nodup) ∧
    (clear_old_schedule 100 ⟨[ev1, ev2], []⟩ "mrc1" "2025-02-15T23:00:00Z").1.calendar =
      [ev1, ev2].filter
        (fun e => !(eventKeyCond "mrc1" "2025-02-15T23:00:00Z" e && originIsLCO e)) := by
  have hnd : (([ev1, ev2] : List CalendarEvent).map (fun e => (e.event_id, e.start))).Nodup := by
    decide
  exact ⟨hnd,
    (clear_old_schedule_exact.1 100 ⟨[ev1, ev2], []⟩ "mrc1" "2025-02-15T23:00:00Z" hnd).1⟩

/-- Counterexample for C4 as stated: with two matching events split across two
result pages, both are deleted (first conjunct) but the function returns only
the last page's project id (second conjunct), not the project_ids of the
deleted events (third and fourth conjuncts). -/
theorem clear_return_multipage_cx :
    (clear_old_schedule 1 ⟨[fv1, fv2], []⟩ "mrc1" "2025-01-01T00:00:00Z").1.calendar = [] ∧
    (clear_old_schedule 1 ⟨[fv1, fv2], []⟩ "mrc1" "2025-01-01T00:00:00Z").2.1 = ["proj-b"] ∧
    ([fv1, fv2].filter
        (fun e => eventKeyCond "mrc1" "2025-01-01T00:00:00Z" e && originIsLCO e)).map
      (fun e => e.project_id) = ["proj-a", "proj-b"] ∧
    (["proj-b"] : List String) ≠ ["proj-a", "proj-b"] := ⟨rfl, rfl, rfl, by decide⟩

/-- C5: at a two-page store both matching events are deleted (first and third
conjuncts show both delete ops are issued and the store ends empty), but the
collected project ids — both the return value and the bulk project-delete
request — hold only the last page's id, not every deleted reservation's.  The
final conjunct shows the sentinel stripping of remove_projects. -/
theorem clear_project_ids_last_page_only :
    (clear_old_schedule 1 ⟨[ev2, ev3], []⟩ "mrc1" "2025-02-15T23:00:00Z").1.calendar = [] ∧
    (clear_old_schedule 1 ⟨[ev2, ev3], []⟩ "mrc1" "2025-02-15T23:00:00Z").2.1 =
      ["test-project-3"] ∧
    (clear_old_schedule 1 ⟨[ev2, ev3], []⟩ "mrc1" "2025-02-15T23:00:00Z").2.2 =
      [.deleteEvent "test-event-2" "2025-02-16T10:00:00Z",
       .deleteEvent "test-event-3" "2025-02-17T10:00:00Z",
       .postRemoveProjects ["test-project-3"]] ∧
    remove_projects_cleaned ["none", "test-project-3", "none#"] = ["test-project-3"] :=
  ⟨rfl, rfl, rfl, rfl⟩
